import Mathlib

set_option maxRecDepth 4000

/-!
Shallow embedding of the walker-loading fallback chain and execution dispatch
of `backend/jac_layer/jac_manager.py` (class JacManager): the capability
registry (walker_map), the four-strategy resolution pipeline
(_initialize_walkers), the capability cache (self.modules), the dispatcher
(execute_walker), and the helpers get_walker_module, get_available_functions,
reload_walkers and health_check.

Python values are modelled by PyVal, exceptions by PyErr, attributes by PyAttr
(callable or plain), module-like objects by PyModule.  The external effects of
importlib.import_module, the sys.path-injected import, os.path.exists and the
exec of a .jac file are supplied by an environment record Env; the code of
jac_manager.py itself is translated statement by statement.  A Python raise is
an Except.error; the try/except structure of the source is mirrored by the
match structure of the definitions.
-/

namespace JacMgr

/-- Python values, as far as the manager observes them. -/
inductive PyVal where
  | str (s : String)
  | int (n : Int)
  | bool (b : Bool)
  | pynone
  | dict (entries : List (String × PyVal))

/-- A keyword-argument bundle: the parameters dict expanded as kwargs. -/
abbrev Params := List (String × PyVal)

/-- Python exceptions, as far as the manager distinguishes them.  It catches
ImportError specifically (strategies 1 and 2) and Exception broadly; the
ValueError and TypeError cases are the concrete classes the relevant code
raises; everything else is otherError. -/
inductive PyErr where
  | importError (msg : String)
  | valueError (msg : String)
  | typeError (msg : String)
  | otherError (msg : String)
deriving DecidableEq

/-- Whether the exception is an ImportError (the class tested by the
except ImportError clauses; ModuleNotFoundError is a subclass, covered). -/
def PyErr.isImportError : PyErr → Bool
  | .importError _ => true
  | _ => false

/-- Python str(e): the message text of the exception. -/
def PyErr.text : PyErr → String
  | .importError m => m
  | .valueError m => m
  | .typeError m => m
  | .otherError m => m

/-- A module attribute: a callable taking kwargs, or a plain value. -/
inductive PyAttr where
  | callable (op : Params → Except PyErr PyVal)
  | plain (v : PyVal)

/-- Python callable(a). -/
def PyAttr.isCallable : PyAttr → Bool
  | .callable _ => true
  | .plain _ => false

/-- Calling an attribute with kwargs; calling a non-callable raises TypeError. -/
def PyAttr.call : PyAttr → Params → Except PyErr PyVal
  | .callable op, ps => op ps
  | .plain _, _ => .error (.typeError "object is not callable")

/-- A loaded module-like object: its attribute table (unique names, in
definition order, as a Python object dict) and whether it is a real
types.ModuleType (as produced by strategies 1 and 2) rather than a
WalkerModule or DummyWalkerModule instance (strategies 3 and 4).
importlib.reload accepts only real modules. -/
structure PyModule where
  attrs : List (String × PyAttr)
  isModuleType : Bool

/-- First-match association lookup (Python dict / attribute lookup; keys are
unique in every table we build, so first-match agrees with dict lookup). -/
def slookup {α : Type} : List (String × α) → String → Option α
  | [], _ => none
  | (k, v) :: rest, key => if k = key then some v else slookup rest key

/-- Python getattr(module, a) as an Option. -/
def getAttr (m : PyModule) (a : String) : Option PyAttr := slookup m.attrs a

/-- Python hasattr(module, a). -/
def hasAttr (m : PyModule) (a : String) : Bool := (getAttr m a).isSome

/-- Python s.startswith("_"): the first character is an underscore. -/
def startsUnderscore (s : String) : Bool :=
  match s.data with
  | [] => false
  | c :: _ => c = '_'

/-- Code-point lexicographic comparison of character lists (the order Python
sorted uses on str). -/
def charListLe : List Char → List Char → Bool
  | [], _ => true
  | _ :: _, [] => false
  | c :: cs, d :: ds =>
    if c.toNat < d.toNat then true
    else if d.toNat < c.toNat then false
    else charListLe cs ds

/-- Code-point lexicographic comparison of strings. -/
def strLeB (a b : String) : Bool := charListLe a.data b.data

/-- Insert into a sorted list of strings (ingredient of Python sorted, which
underlies dir). -/
def insertSorted (x : String) : List String → List String
  | [] => [x]
  | y :: ys => if strLeB x y then x :: y :: ys else y :: insertSorted x ys

/-- Sort a list of strings as Python sorted does (code-point lexicographic). -/
def sortStrings (l : List String) : List String := l.foldr insertSorted []

/-- Python dir(module): the attribute names, sorted. -/
def dirNames (m : PyModule) : List String := sortStrings (m.attrs.map Prod.fst)

/-- The list comprehension used at lines 171-172 and 207-208 of the source:
the attributes of dir(module) that are callable and do not start with an
underscore. -/
def dirCallables (m : PyModule) : List String :=
  (dirNames m).filter (fun a =>
    ((getAttr m a).map PyAttr.isCallable).getD false && !startsUnderscore a)

/-- self.walker_map from JacManager.__init__: the registry of logical
capability names and their python import paths. -/
def walker_map : List (String × String) :=
  [("orchestrator", "jac_layer.walkers.orchestrator"),
   ("content_curator", "jac_layer.walkers.content_curator"),
   ("quiz_master", "jac_layer.walkers.quiz_master"),
   ("evaluator", "jac_layer.walkers.evaluator"),
   ("progress_tracker", "jac_layer.walkers.progress_tracker"),
   ("motivator", "jac_layer.walkers.motivator")]

/-- The static fallback_methods table of strategy 4 in _initialize_walkers. -/
def fallback_methods : List (String × List String) :=
  [("orchestrator",
     ["init_user_graph", "start_lesson_sequence", "coordinate_learning_workflow"]),
   ("content_curator",
     ["get_lesson_content", "create_learning_material", "adapt_content_difficulty"]),
   ("quiz_master",
     ["generate_adaptive_quiz", "create_question_set", "evaluate_quiz_performance"]),
   ("evaluator",
     ["evaluate_code_response", "evaluate_text_response", "provide_feedback"]),
   ("progress_tracker",
     ["track_lesson_progress", "update_mastery_scores", "get_learning_analytics"]),
   ("motivator",
     ["generate_motivational_message", "create_encouragement", "track_achievements"])]

/-- The function_mapping table of execute_walker: the default entry operation
per walker name. -/
def function_mapping : List (String × String) :=
  [("orchestrator", "init_user_graph"),
   ("content_curator", "get_lesson_content"),
   ("quiz_master", "generate_adaptive_quiz"),
   ("evaluator", "evaluate_code_response"),
   ("progress_tracker", "track_lesson_progress"),
   ("motivator", "generate_motivational_message")]

/-- The external world of the resolution pipeline: settings.BASE_DIR,
importlib.import_module on a dotted path (strategy 1), import by bare name
after the walkers directory was inserted into sys.path (strategy 2),
os.path.exists, and the combined open/read/exec of a .jac file (strategy 3),
the last returning the namespace produced by exec. -/
structure Env where
  baseDir : String
  importModule : String → Except PyErr PyModule
  importByName : String → Except PyErr PyModule
  fileExists : String → Bool
  execFile : String → Except PyErr (List (String × PyAttr))

/-- os.path.join(settings.BASE_DIR, "jac_layer", "walkers", name + ".jac"). -/
def walkerFile (env : Env) (name : String) : String :=
  env.baseDir ++ "/jac_layer/walkers/" ++ name ++ ".jac"

/-- Strategy 3 of _initialize_walkers: read the .jac file and execute it,
wrapping every top-level non-underscore callable of the namespace into a
WalkerModule instance (not a real module).  Raises ImportError when the file
does not exist, and propagates whatever the read or exec raises. -/
def strategy3 (env : Env) (name : String) : Except PyErr PyModule :=
  let wf := walkerFile env name
  if env.fileExists wf then
    match env.execFile wf with
    | .ok ns =>
        .ok ⟨ns.filter (fun kv => !startsUnderscore kv.1 && kv.2.isCallable), false⟩
    | .error e => .error e
  else
    .error (.importError ("Walker file not found: " ++ wf))

/-- fallback_methods.get(name, ["execute"]) of strategy 4. -/
def strategy4Methods (name : String) : List String :=
  (slookup fallback_methods name).getD ["execute"]

/-- Outcome of the per-name body of the _initialize_walkers loop.
real: a module object was produced (strategies 1, 2 or 3) and cached.
stub: strategy 4 fired; the DummyWalkerModule is built later because its
  closures read the loop variables at call time (after the loop).
skip: strategy 1 raised a non-ImportError, caught by the outer
  except Exception (line 151): the name gets no cache entry.
abort: strategy 2 raised a non-ImportError; no except clause of the same
  try can catch an exception raised inside a sibling handler, so it
  propagates out of _initialize_walkers and out of JacManager.__init__. -/
inductive ResolveResult where
  | real (m : PyModule)
  | stub (methods : List String)
  | skip (e : PyErr)
  | abort (e : PyErr)

/-- Whether the outcome leaves a cache entry for the name. -/
def ResolveResult.isCached : ResolveResult → Bool
  | .real _ => true
  | .stub _ => true
  | _ => false

/-- The body of the _initialize_walkers loop for one registry entry:
strategy 1 (direct import), on ImportError strategy 2 (path-injected import),
on ImportError strategy 3 (source execution), on any error strategy 4
(fallback stub, which never fails). -/
def resolveName (env : Env) (name modulePath : String) : ResolveResult :=
  match env.importModule modulePath with
  | .ok m => .real m
  | .error e =>
    if e.isImportError then
      match env.importByName name with
      | .ok m => .real m
      | .error e2 =>
        if e2.isImportError then
          match strategy3 env name with
          | .ok m => .real m
          | .error _ => .stub (strategy4Methods name)
        else
          .abort e2
    else
      .skip e

/-- The _initialize_walkers loop over the registry: resolves each name in
order; an abort propagates (the remaining names are not processed and the
constructor raises). -/
def runInit (env : Env) : List (String × String) → Except PyErr (List (String × ResolveResult))
  | [] => .ok []
  | (name, path) :: rest =>
    match resolveName env name path with
    | .abort e => .error e
    | r =>
      match runInit env rest with
      | .ok outs => .ok ((name, r) :: outs)
      | .error e => .error e

/-- The value of the local variable method_name after the loop has finished:
the last method of the last nonempty strategy-4 method list that was
iterated (none when no stub method was ever bound). -/
def finalMethodName (outs : List (String × ResolveResult)) : Option String :=
  outs.foldl (fun acc nr =>
    match nr.2 with
    | .stub ms =>
      match ms.getLast? with
      | some m => some m
      | none => acc
    | _ => acc) none

/-- The fallback_method closure of strategy 4.  It reads the enclosing
function locals name and method_name at call time; by then the loops have
finished, so every stub operation sees the final values of those variables
(Python closures capture variables, not values).  An unbound method_name
would raise NameError at call time. -/
def stubOp (finalName : String) (finalMethod : Option String) :
    Params → Except PyErr PyVal :=
  fun kwargs =>
    match finalMethod with
    | none => .error (.otherError "NameError: name method_name is not defined")
    | some fm =>
      .ok (.dict
        [("status", .str "fallback"),
         ("walker", .str finalName),
         ("method", .str fm),
         ("message", .str ("Walker " ++ finalName ++ " is running in fallback mode")),
         ("parameters", .dict kwargs),
         ("timestamp", .str "2025-12-04T17:47:44Z")])

/-- The DummyWalkerModule of strategy 4: one attribute per method name of the
static table, each bound to the fallback_method closure. -/
def mkStubModule (finalName : String) (finalMethod : Option String)
    (methods : List String) : PyModule :=
  ⟨methods.map (fun m => (m, .callable (stubOp finalName finalMethod))), false⟩

/-- The value of the loop variable name after the registry loop has finished:
the last registered name (the loop runs to the end whenever __init__
returns, since skip continues and abort never returns). -/
def lastRegistryName : String := ((walker_map.map Prod.fst).getLast?).getD ""

/-- Turn one loop outcome into its cache entry, if any. -/
def buildEntry (finalName : String) (finalMethod : Option String)
    (nr : String × ResolveResult) : Option (String × PyModule) :=
  match nr.2 with
  | .real m => some (nr.1, m)
  | .stub ms => some (nr.1, mkStubModule finalName finalMethod ms)
  | _ => none

/-- The contents of self.modules after _initialize_walkers: an entry per
resolved name, stub modules built with the final loop-variable values. -/
def buildModules (outs : List (String × ResolveResult)) : List (String × PyModule) :=
  outs.filterMap (buildEntry lastRegistryName (finalMethodName outs))

/-- The state of a JacManager instance: the capability cache self.modules. -/
structure JacState where
  modules : List (String × PyModule)

/-- JacManager.__init__ / _initialize_walkers: populate self.modules, or
raise when a strategy-2 failure is not an ImportError. -/
def initialize_walkers (env : Env) : Except PyErr JacState :=
  (runInit env walker_map).map (fun outs => ⟨buildModules outs⟩)

/-- get_walker_module: return the cached module or raise ValueError.  The
source tests if not module, and module objects are always truthy, so this is
exactly a presence test.  The state is returned to make the absence of cache
mutation explicit. -/
def get_walker_module (s : JacState) (module_name : String) :
    Except PyErr PyModule × JacState :=
  match slookup s.modules module_name with
  | some m => (.ok m, s)
  | none => (.error (.valueError ("Module " ++ module_name ++ " is not loaded.")), s)

/-- get_available_functions: [] for an unknown name, otherwise the public
callable attributes in dir order. -/
def get_available_functions (s : JacState) (walker_name : String) :
    List String × JacState :=
  match slookup s.modules walker_name with
  | none => ([], s)
  | some m => (dirCallables m, s)

/-- The result dict of execute_walker.  A success carries data and
function_called; an error carries message; both carry status and
walker_name. -/
structure InvocationResult where
  status : String
  data : Option PyVal
  message : Option String
  walker_name : String
  function_called : Option String

/-- Steps 2 and 3 of execute_walker: the default function name from
function_mapping (defaulting to walker_name + "_execute"), kept when the
module has an attribute of that name, otherwise replaced by the first
available public callable; ValueError when there is none. -/
def selectFunction (walker_name : String) (m : PyModule) : Except PyErr String :=
  let function_name := (slookup function_mapping walker_name).getD (walker_name ++ "_execute")
  if hasAttr m function_name then
    .ok function_name
  else
    match dirCallables m with
    | [] => .error (.valueError ("No callable functions found in module \x27" ++ walker_name ++ "\x27"))
    | f :: _ => .ok f

/-- The body of the try block of execute_walker (steps 1 to 5): any raise
becomes an Except.error, to be caught by the handler below. -/
def execAttempt (s : JacState) (walker_name : String) (params : Params) :
    Except PyErr InvocationResult :=
  match slookup s.modules walker_name with
  | none => .error (.valueError ("Walker module \x27" ++ walker_name ++ "\x27 is not loaded."))
  | some m =>
    match selectFunction walker_name m with
    | .error e => .error e
    | .ok function_name =>
      match getAttr m function_name with
      | none => .error (.otherError ("AttributeError: " ++ function_name))
      | some f =>
        match f.call params with
        | .ok result_data =>
          .ok ⟨"success", some result_data, none, walker_name, some function_name⟩
        | .error e => .error e

/-- execute_walker: parameters default to the empty dict; the whole body is
wrapped in try/except Exception, which turns any raise into the error result
dict with message str(e).  The Except layer of the first component records
that the function itself never raises (it is always Except.ok). -/
def execute_walker (s : JacState) (walker_name : String) (parameters : Option Params) :
    Except PyErr InvocationResult × JacState :=
  let params := parameters.getD []
  match execAttempt s walker_name params with
  | .ok r => (.ok r, s)
  | .error e => (.ok ⟨"error", none, some e.text, walker_name, none⟩, s)

/-- The external effect of importlib.reload on a real module: re-import,
yielding the updated module object (in place in CPython; modelled as the
replacement entry) or raising. -/
structure ReloadEnv where
  reloadModule : String → PyModule → Except PyErr PyModule

/-- importlib.reload(module): raises TypeError unless the argument is a real
module object. -/
def reloadOne (env : ReloadEnv) (name : String) (m : PyModule) : Except PyErr PyModule :=
  if m.isModuleType then env.reloadModule name m
  else .error (.typeError "reload() argument must be a module")

/-- The loop of reload_walkers: the single try wraps the whole loop, so the
first raise aborts it, leaving the remaining entries untouched (entries
already reloaded keep their updated contents). -/
def reloadLoop (env : ReloadEnv) : List (String × PyModule) → Bool × List (String × PyModule)
  | [] => (true, [])
  | (n, m) :: rest =>
    match reloadOne env n m with
    | .ok m2 =>
      let r := reloadLoop env rest
      (r.1, (n, m2) :: r.2)
    | .error _ => (false, (n, m) :: rest)

/-- reload_walkers: importlib.reload over self.modules, True on full success,
False as soon as one reload raises. -/
def reload_walkers (env : ReloadEnv) (s : JacState) : Bool × JacState :=
  let r := reloadLoop env s.modules
  (r.1, ⟨r.2⟩)

/-- health_check: a single boolean, loaded_count > 0 (per-name status is only
logged, not returned). -/
def health_check (s : JacState) : Bool := decide (0 < s.modules.length)

/-- Whether a raise-or-return value is a normal return. -/
def isOkE {α : Type} : Except PyErr α → Bool
  | .ok _ => true
  | .error _ => false

/-- The operation-selection rule exactly as claim C4 words it, with an
operation hint: hint when exposed, else the default-operation mapping when
one exists, else the first enumerable operation; none models the
NoOperationAvailable failure on a handle with zero operations.  This
definition follows the claim, not the source, and exists only to be compared
with selectFunction / execute_walker. -/
def claimSelectOperation (operation_hint : Option String) (walker_name : String)
    (m : PyModule) : Option String :=
  let exposed := dirCallables m
  if exposed.isEmpty then none
  else
    match operation_hint with
    | some h =>
      if exposed.contains h then some h
      else
        match slookup function_mapping walker_name with
        | some d => some d
        | none => exposed.head?
    | none =>
      match slookup function_mapping walker_name with
      | some d => some d
      | none => exposed.head?

/-- An environment in which every import fails with ImportError and no walker
file exists: every registered name degrades to the strategy-4 stub. -/
def allFailEnv : Env :=
  ⟨"/base",
   fun _ => .error (.importError "No module named jac_layer"),
   fun _ => .error (.importError "No module named walker"),
   fun _ => false,
   fun _ => .error (.importError "unreadable")⟩

/-- The manager state produced by allFailEnv: six fallback stubs. -/
def allFailState : JacState :=
  match initialize_walkers allFailEnv with
  | .ok s => s
  | .error _ => ⟨[]⟩

/-- An environment in which the direct import of the orchestrator path raises
a ValueError (a module whose top-level code raises at import time does
exactly this through importlib.import_module), while every other load
attempt fails with a plain ImportError. -/
def orchBrokenEnv : Env :=
  ⟨"/base",
   fun p => if p = "jac_layer.walkers.orchestrator"
            then .error (.valueError "orchestrator module body raised")
            else .error (.importError "No module"),
   fun _ => .error (.importError "No module"),
   fun _ => false,
   fun _ => .error (.importError "unreadable")⟩

/-- The manager state produced by orchBrokenEnv: the orchestrator name is
skipped by the outer except Exception and gets no cache entry. -/
def orchBrokenState : JacState :=
  match initialize_walkers orchBrokenEnv with
  | .ok s => s
  | .error _ => ⟨[]⟩

/-- The fallback stub cached for the orchestrator in allFailState. -/
def orchFallbackModule : PyModule :=
  match slookup allFailState.modules "orchestrator" with
  | some m => m
  | none => ⟨[], false⟩

/-- An operation that returns normally; used to build handles. -/
def ranOp : Params → Except PyErr PyVal := fun _ => .ok (.str "ran")

/-- A handle exposing the evaluator default operation plus a second
operation that sorts after it. -/
def hintDemoModule : PyModule :=
  ⟨[("evaluate_code_response", .callable ranOp), ("zz_custom", .callable ranOp)], true⟩

/-- A cache holding hintDemoModule under the evaluator name. -/
def hintDemoState : JacState := ⟨[("evaluator", hintDemoModule)]⟩

/-- An operation that raises ValueError("boom"). -/
def boomOp : Params → Except PyErr PyVal := fun _ => .error (.valueError "boom")

/-- A real module whose default evaluator operation raises. -/
def boomModule : PyModule := ⟨[("evaluate_code_response", .callable boomOp)], true⟩

/-- A cache holding boomModule under the evaluator name. -/
def boomState : JacState := ⟨[("evaluator", boomModule)]⟩

/-- A stale real module for the reload scenario. -/
def staleModule : PyModule :=
  ⟨[("get_lesson_content", .callable (fun _ => .ok (.str "stale")))], true⟩

/-- A fresh real module that a successful reload would produce. -/
def freshModule : PyModule :=
  ⟨[("get_lesson_content", .callable (fun _ => .ok (.str "fresh")))], true⟩

/-- A reload environment in which re-importing any real module succeeds and
yields freshModule. -/
def upgradeEnv : ReloadEnv := ⟨fun _ _ => .ok freshModule⟩

/-- A reload environment in which re-importing any real module succeeds and
returns it unchanged. -/
def idReloadEnv : ReloadEnv := ⟨fun _ m => .ok m⟩

/-- A cache whose first entry is a fallback stub and whose second is a real,
reloadable module. -/
def stubFirstState : JacState :=
  ⟨[("orchestrator",
      mkStubModule "motivator" (some "track_achievements") (strategy4Methods "orchestrator")),
    ("content_curator", staleModule)]⟩

/-- A trivially loaded real module with one public operation. -/
def minimalModule : PyModule := ⟨[("execute", .callable (fun _ => .ok .pynone))], true⟩

/-- A cache with exactly one registered name loaded. -/
def oneLoadedState : JacState := ⟨[("orchestrator", minimalModule)]⟩

/-- A cache with every registered name loaded. -/
def allLoadedState : JacState := ⟨walker_map.map (fun nw => (nw.1, minimalModule))⟩

/-- A cache holding a handle with zero public callables. -/
def emptyModState : JacState := ⟨[("mystery", ⟨[], true⟩)]⟩

/-! Helper lemmas about the association lookup and the pipeline. -/

theorem slookup_isSome_of_mem {α : Type} (l : List (String × α)) (k : String)
    (h : k ∈ l.map Prod.fst) : (slookup l k).isSome = true := by
  induction l with
  | nil => simp at h
  | cons hd tl ih =>
    obtain ⟨k0, v0⟩ := hd
    simp only [List.map_cons, List.mem_cons] at h
    by_cases hk : k0 = k
    · simp [slookup, hk]
    · rcases h with h | h
      · exact absurd h.symm hk
      · simpa [slookup, hk] using ih h

theorem slookup_eq_none_of_not_mem {α : Type} (l : List (String × α)) (k : String)
    (h : k ∉ l.map Prod.fst) : slookup l k = none := by
  induction l with
  | nil => rfl
  | cons hd tl ih =>
    obtain ⟨k0, v0⟩ := hd
    simp only [List.map_cons, List.mem_cons] at h
    push_neg at h
    simp only [slookup]
    rw [if_neg (fun he => h.1 he.symm)]
    exact ih h.2

theorem runInit_keys (env : Env) (l : List (String × String))
    (outs : List (String × ResolveResult)) (h : runInit env l = .ok outs) :
    outs.map Prod.fst = l.map Prod.fst := by
  induction l generalizing outs with
  | nil =>
    simp only [runInit] at h
    cases h
    rfl
  | cons hd tl ih =>
    obtain ⟨name, path⟩ := hd
    simp only [runInit] at h
    split at h
    · exact absurd h (by simp)
    · split at h
      · cases h
        simp [ih _ (by assumption)]
      · exact absurd h (by simp)

theorem buildEntry_fst (fn : String) (fm : Option String)
    (nr : String × ResolveResult) (p : String × PyModule)
    (h : buildEntry fn fm nr = some p) : p.1 = nr.1 := by
  unfold buildEntry at h
  split at h <;> first | (cases h; rfl) | exact absurd h (by simp)

theorem mem_keys_of_mem_filterMap_buildEntry (fn : String) (fm : Option String)
    (outs : List (String × ResolveResult)) (n : String)
    (h : n ∈ (outs.filterMap (buildEntry fn fm)).map Prod.fst) :
    n ∈ outs.map Prod.fst := by
  induction outs with
  | nil => simp at h
  | cons o rest ih =>
    rw [List.filterMap_cons] at h
    cases hb : buildEntry fn fm o with
    | none =>
      rw [hb] at h
      exact List.mem_cons_of_mem _ (ih h)
    | some p =>
      rw [hb] at h
      simp only [List.map_cons, List.mem_cons] at h
      rcases h with h | h
      · exact List.mem_cons.mpr (Or.inl (h.trans (buildEntry_fst fn fm o p hb)))
      · exact List.mem_cons_of_mem _ (ih h)

theorem buildEntry_isSome_of_isCached (fn : String) (fm : Option String)
    (nr : String × ResolveResult) (h : nr.2.isCached = true) :
    ∃ m, buildEntry fn fm nr = some (nr.1, m) := by
  obtain ⟨n, r⟩ := nr
  cases r with
  | real m => exact ⟨m, rfl⟩
  | stub ms => exact ⟨_, rfl⟩
  | skip e => simp [ResolveResult.isCached] at h
  | abort e => simp [ResolveResult.isCached] at h

theorem filterMap_buildEntry_keys_of_isCached (fn : String) (fm : Option String)
    (outs : List (String × ResolveResult))
    (h : ∀ o ∈ outs, o.2.isCached = true) :
    (outs.filterMap (buildEntry fn fm)).map Prod.fst = outs.map Prod.fst := by
  induction outs with
  | nil => rfl
  | cons o rest ih =>
    obtain ⟨m, hm⟩ := buildEntry_isSome_of_isCached fn fm o (h o (List.mem_cons_self o rest))
    rw [List.filterMap_cons, hm]
    simp only [List.map_cons]
    rw [ih (fun x hx => h x (List.mem_cons_of_mem o hx))]

theorem resolveName_isCached (env : Env)
    (h1 : ∀ p e, env.importModule p = .error e → e.isImportError = true)
    (h2 : ∀ n e, env.importByName n = .error e → e.isImportError = true)
    (name path : String) : (resolveName env name path).isCached = true := by
  unfold resolveName
  cases hi : env.importModule path with
  | ok m => rfl
  | error e =>
    dsimp only
    rw [h1 path e hi]
    simp only [if_true]
    cases hi2 : env.importByName name with
    | ok m => rfl
    | error e2 =>
      dsimp only
      rw [h2 name e2 hi2]
      simp only [if_true]
      cases strategy3 env name <;> rfl

theorem runInit_ok_of_isCached (env : Env) (l : List (String × String))
    (h : ∀ np ∈ l, (resolveName env np.1 np.2).isCached = true) :
    ∃ outs, runInit env l = .ok outs ∧ ∀ o ∈ outs, o.2.isCached = true := by
  induction l with
  | nil => exact ⟨[], rfl, by simp⟩
  | cons hd tl ih =>
    obtain ⟨name, path⟩ := hd
    obtain ⟨outs, hok, hcb⟩ := ih (fun np hnp => h np (List.mem_cons_of_mem _ hnp))
    have hhd := h (name, path) (List.mem_cons_self _ tl)
    refine ⟨(name, resolveName env name path) :: outs, ?_, ?_⟩
    · simp only [runInit]
      cases hr : resolveName env name path with
      | abort e => rw [hr] at hhd; simp [ResolveResult.isCached] at hhd
      | real m => rw [hok]
      | stub ms => rw [hok]
      | skip e => rw [hok]
    · intro o ho
      rcases List.mem_cons.mp ho with ho | ho
      · rw [ho]; exact hhd
      · exact hcb o ho

theorem initialize_ok_inv (env : Env) (s : JacState)
    (hs : initialize_walkers env = .ok s) :
    ∃ outs, runInit env walker_map = .ok outs ∧ s.modules = buildModules outs := by
  unfold initialize_walkers at hs
  cases hr : runInit env walker_map with
  | ok outs =>
    rw [hr] at hs
    cases hs
    exact ⟨outs, rfl, rfl⟩
  | error e => rw [hr] at hs; exact absurd hs (by simp [Except.map])

theorem modules_keys_sub_registry (env : Env) (s : JacState)
    (hs : initialize_walkers env = .ok s) (n : String)
    (hn : n ∈ s.modules.map Prod.fst) : n ∈ walker_map.map Prod.fst := by
  obtain ⟨outs, hok, hm⟩ := initialize_ok_inv env s hs
  rw [hm] at hn
  have := mem_keys_of_mem_filterMap_buildEntry _ _ outs n hn
  rwa [runInit_keys env walker_map outs hok] at this

theorem execAttempt_ok_status (s : JacState) (wn : String) (p : Params)
    (r : InvocationResult) (h : execAttempt s wn p = .ok r) :
    r.status = "success" := by
  unfold execAttempt at h
  split at h
  · exact absurd h (by simp)
  · split at h
    · exact absurd h (by simp)
    · split at h
      · exact absurd h (by simp)
      · split at h
        · cases h; rfl
        · exact absurd h (by simp)

theorem execute_walker_eq (s : JacState) (wn : String) (ps : Option Params) :
    execute_walker s wn ps =
      match execAttempt s wn (ps.getD []) with
      | .ok r => (.ok r, s)
      | .error e => (.ok ⟨"error", none, some e.text, wn, none⟩, s) := rfl

/-! The claims. -/

/-- C1 counterexample: resolution does not fall through on every error.  In
orchBrokenEnv the direct import of the orchestrator raises a ValueError; the
outer except Exception of _initialize_walkers swallows it without reaching
strategies 2 to 4, so initialization completes with no cache entry for the
registered name orchestrator, and get_walker_module raises instead of
returning a handle. -/
theorem c1_counterexample :
    initialize_walkers orchBrokenEnv = .ok orchBrokenState ∧
    (get_walker_module orchBrokenState "orchestrator").1 =
      .error (.valueError "Module orchestrator is not loaded.") := ⟨rfl, rfl⟩

/-- C1 (amended): provided every failure of strategy 1 (direct import) and of
strategy 2 (path-injected import) is an ImportError — the only exception
class those two strategies catch — the pipeline falls through as described,
strategy 3 may fail with any error, the terminal fallback stub never fails,
initialization completes without raising, and get_or_resolve
(get_walker_module) returns a non-null handle for every name in the registry
(walker_map). -/
theorem c1_fallback_always_caches (env : Env)
    (h1 : ∀ p e, env.importModule p = .error e → e.isImportError = true)
    (h2 : ∀ n e, env.importByName n = .error e → e.isImportError = true) :
    ∃ s, initialize_walkers env = .ok s ∧
      ∀ n ∈ walker_map.map Prod.fst, ∃ m, (get_walker_module s n).1 = .ok m := by
  obtain ⟨outs, hok, hcached⟩ := runInit_ok_of_isCached env walker_map
    (fun np _ => resolveName_isCached env h1 h2 np.1 np.2)
  refine ⟨⟨buildModules outs⟩, ?_, ?_⟩
  · unfold initialize_walkers
    rw [hok]
    rfl
  · intro n hn
    have hn2 : n ∈ outs.map Prod.fst := by
      rw [runInit_keys env walker_map outs hok]
      exact hn
    have hn3 : n ∈ (buildModules outs).map Prod.fst := by
      unfold buildModules
      rw [filterMap_buildEntry_keys_of_isCached lastRegistryName (finalMethodName outs) outs hcached]
      exact hn2
    have hsome := slookup_isSome_of_mem (buildModules outs) n hn3
    cases hl : slookup (buildModules outs) n with
    | some m =>
      refine ⟨m, ?_⟩
      unfold get_walker_module
      dsimp only
      rw [hl]
    | none => rw [hl] at hsome; simp at hsome

/-- C1 witness: in the environment where every import attempt fails with an
ImportError and no walker file exists, every registered name still resolves
(to the fallback stub) and get_walker_module returns a handle. -/
theorem c1_witness : isOkE (get_walker_module allFailState "quiz_master").1 = true := by
  obtain ⟨s, hs, hall⟩ := c1_fallback_always_caches allFailEnv
    (fun p e he => by
      have h2 := he
      simp only [allFailEnv] at h2
      rw [← Except.error.inj h2]
      rfl)
    (fun n e he => by
      have h2 := he
      simp only [allFailEnv] at h2
      rw [← Except.error.inj h2]
      rfl)
  have hstate : allFailState = s := by
    unfold allFailState
    rw [hs]
  obtain ⟨m, hm⟩ := hall "quiz_master" (by decide)
  rw [hstate, hm]
  rfl

/-- C2 counterexample: for the never-registered name nonexistent,
execute_walker does not raise to the caller: it catches the internal
ValueError and returns a normal result dict with status error (the first
component is Except.ok, i.e. a return, not a raise).  The cache is unchanged,
and get_walker_module does raise — so the half of the claim asserting that
invoke raises is false. -/
theorem c2_counterexample :
    execute_walker allFailState "nonexistent" none =
      (.ok ⟨"error", none, some "Walker module \x27nonexistent\x27 is not loaded.",
            "nonexistent", none⟩,
       allFailState) := rfl

/-- C2 (amended): for every name never registered, get_walker_module raises
ValueError (the UnknownCapability error) and leaves the cache unchanged,
while execute_walker catches that same error at its boundary and returns a
status-error result dict naming the module — it does not raise — also
leaving the cache unchanged. -/
theorem c2_unregistered (env : Env) (s : JacState) (n : String)
    (hs : initialize_walkers env = .ok s)
    (hn : n ∉ walker_map.map Prod.fst) :
    get_walker_module s n =
      (.error (.valueError ("Module " ++ n ++ " is not loaded.")), s) ∧
    execute_walker s n none =
      (.ok ⟨"error", none, some ("Walker module \x27" ++ n ++ "\x27 is not loaded."),
            n, none⟩, s) := by
  have hnone : slookup s.modules n = none := by
    apply slookup_eq_none_of_not_mem
    intro hmem
    exact hn (modules_keys_sub_registry env s hs n hmem)
  constructor
  · unfold get_walker_module
    rw [hnone]
  · rw [execute_walker_eq]
    unfold execAttempt
    rw [hnone]
    rfl

/-- C2 witness: the amended claim at the concrete all-fallback state and the
concrete unregistered name unregistered_cap. -/
theorem c2_witness :
    get_walker_module allFailState "unregistered_cap" =
      (.error (.valueError "Module unregistered_cap is not loaded."), allFailState) :=
  (c2_unregistered allFailEnv allFailState "unregistered_cap" rfl (by decide)).1

/-- C3 evaluation at the failing input (code bug): the fallback stub for the
orchestrator exposes exactly the three operation names of the static table,
but invoking its operation init_user_graph with parameter x = 1 returns a
result whose method field is track_achievements and whose walker field is
motivator — the final values of the loop variables, which the
fallback_method closure reads late — instead of echoing the operation
actually invoked (init_user_graph) and the capability (orchestrator).  The
parameters are echoed correctly. -/
theorem c3_stub_echoes_last_loop_values :
    orchFallbackModule.attrs.map Prod.fst =
      ["init_user_graph", "start_lesson_sequence", "coordinate_learning_workflow"] ∧
    (match getAttr orchFallbackModule "init_user_graph" with
     | some f => f.call [("x", .int 1)]
     | none => .error (.otherError "missing attribute")) =
      .ok (.dict
        [("status", .str "fallback"),
         ("walker", .str "motivator"),
         ("method", .str "track_achievements"),
         ("message", .str "Walker motivator is running in fallback mode"),
         ("parameters", .dict [("x", .int 1)]),
         ("timestamp", .str "2025-12-04T17:47:44Z")]) := ⟨rfl, rfl⟩

/-- C4 counterexample: execute_walker takes no operation hint, so the rule
the claim states cannot hold.  On a handle exposing both the evaluator
default operation and zz_custom, the rule of the claim with hint zz_custom
selects zz_custom, but the code (which has nowhere to receive the hint)
invokes the default operation. -/
theorem c4_counterexample :
    claimSelectOperation (some "zz_custom") "evaluator" hintDemoModule = some "zz_custom" ∧
    selectFunction "evaluator" hintDemoModule = .ok "evaluate_code_response" ∧
    (execute_walker hintDemoState "evaluator" none).1 =
      .ok ⟨"success", some (.str "ran"), none, "evaluator", some "evaluate_code_response"⟩ :=
  ⟨rfl, rfl, rfl⟩

/-- C4 (amended): execute_walker accepts no operation hint.  It selects the
capability-specific default operation name — function_mapping, defaulting to
walker_name + "_execute" — whenever the handle has an attribute of that
name; otherwise the first public callable in dir order; and when the handle
exposes zero public callables the call yields a status-error result (the
NoOperationAvailable case). -/
theorem c4_selection (s : JacState) (wn : String) (m : PyModule)
    (hm : slookup s.modules wn = some m) :
    (hasAttr m ((slookup function_mapping wn).getD (wn ++ "_execute")) = true →
      selectFunction wn m = .ok ((slookup function_mapping wn).getD (wn ++ "_execute"))) ∧
    (hasAttr m ((slookup function_mapping wn).getD (wn ++ "_execute")) = false →
      ∀ f rest, dirCallables m = f :: rest → selectFunction wn m = .ok f) ∧
    (hasAttr m ((slookup function_mapping wn).getD (wn ++ "_execute")) = false →
      dirCallables m = [] →
      (execute_walker s wn none).1 =
        .ok ⟨"error", none,
             some ("No callable functions found in module \x27" ++ wn ++ "\x27"),
             wn, none⟩) := by
  refine ⟨?_, ?_, ?_⟩
  · intro h
    simp [selectFunction, h]
  · intro h f rest hd
    simp [selectFunction, h, hd]
  · intro h hd
    rw [execute_walker_eq]
    unfold execAttempt
    rw [hm]
    dsimp only
    have hsel : selectFunction wn m =
        .error (.valueError ("No callable functions found in module \x27" ++ wn ++ "\x27")) := by
      simp [selectFunction, h, hd]
    rw [hsel]
    rfl

/-- C4 witness: the amended claim at a handle with zero public callables. -/
theorem c4_witness :
    (execute_walker emptyModState "mystery" none).1 =
      .ok ⟨"error", none, some "No callable functions found in module \x27mystery\x27",
           "mystery", none⟩ :=
  (c4_selection emptyModState "mystery" ⟨[], true⟩ rfl).2.2 rfl rfl

/-- C5: when the selected operation raises any exception, execute_walker
returns a result with status error whose message is str(e) — so it contains
the exception text — and whose walker_name field names the capability; the
exception is absorbed (the outer component is Except.ok: no raise reaches
the caller). -/
theorem c5_invocation_error_absorbed (s : JacState) (wn : String) (m : PyModule)
    (f : String) (a : PyAttr) (ps : Option Params) (e : PyErr)
    (hm : slookup s.modules wn = some m)
    (hf : selectFunction wn m = .ok f)
    (ha : getAttr m f = some a)
    (hraise : a.call (ps.getD []) = .error e) :
    execute_walker s wn ps = (.ok ⟨"error", none, some e.text, wn, none⟩, s) := by
  rw [execute_walker_eq]
  unfold execAttempt
  rw [hm]
  dsimp only
  rw [hf]
  dsimp only
  rw [ha]
  dsimp only
  rw [hraise]

/-- C5 witness: an operation raising ValueError("boom") yields the error
result with message boom, and no exception escapes. -/
theorem c5_witness :
    execute_walker boomState "evaluator" (some []) =
      (.ok ⟨"error", none, some "boom", "evaluator", none⟩, boomState) :=
  c5_invocation_error_absorbed boomState "evaluator" boomModule "evaluate_code_response"
    (.callable boomOp) (some []) (.valueError "boom") rfl rfl rfl rfl

/-- C6: get_walker_module is idempotent per name — two calls with no
intervening reload return the identical cached handle and leave the state
unchanged — and the resolver pipeline runs exactly once per registered name,
at initialization only (runInit produces exactly one outcome per registry
entry; no other operation invokes resolveName). -/
theorem c6_idempotent (s : JacState) (n : String) (m : PyModule)
    (h : slookup s.modules n = some m) :
    get_walker_module s n = (.ok m, s) ∧
    get_walker_module (get_walker_module s n).2 n = (.ok m, s) ∧
    ∀ (env : Env) (outs : List (String × ResolveResult)),
      runInit env walker_map = .ok outs →
      outs.map Prod.fst = walker_map.map Prod.fst := by
  have h1 : get_walker_module s n = (.ok m, s) := by
    unfold get_walker_module
    rw [h]
  refine ⟨h1, ?_, fun env outs hok => runInit_keys env walker_map outs hok⟩
  rw [h1]
  exact h1

/-- C6 witness: idempotence at a concrete cached handle. -/
theorem c6_witness :
    get_walker_module boomState "evaluator" = (.ok boomModule, boomState) :=
  (c6_idempotent boomState "evaluator" boomModule rfl).1

/-- C7 counterexample: in a cache whose first entry is a fallback stub and
whose second is a real module that would reload successfully (second
conjunct), reload_walkers fails on the stub (importlib.reload rejects
non-modules), aborts the loop, returns False, and leaves every entry
unchanged: the failure on one name does prevent the remaining names from
being updated, no resolution is re-run, and the stub is not replaced. -/
theorem c7_counterexample :
    reload_walkers upgradeEnv stubFirstState = (false, stubFirstState) ∧
    reloadOne upgradeEnv "content_curator" staleModule = .ok freshModule :=
  ⟨rfl, rfl⟩

/-- C7 (amended): reload_walkers does not re-run the resolution pipeline; it
applies importlib.reload to each cached entry in order inside a single try,
so the first failure aborts the loop and returns False with the failing and
all later entries untouched.  A fallback stub is not a module object, so
reloading it always fails: when the first cached entry is a stub, no entry
at all is updated and the stub remains. -/
theorem c7_reload_stub_aborts (env : ReloadEnv) (s : JacState) (n : String)
    (m : PyModule) (rest : List (String × PyModule))
    (hmods : s.modules = (n, m) :: rest)
    (hstub : m.isModuleType = false) :
    reload_walkers env s = (false, s) := by
  have hloop : reloadLoop env s.modules = (false, s.modules) := by
    rw [hmods]
    unfold reloadLoop reloadOne
    rw [hstub]
    rfl
  unfold reload_walkers
  rw [hloop]

/-- C7 witness: the amended claim at a concrete stub-first cache. -/
theorem c7_witness :
    reload_walkers idReloadEnv stubFirstState = (false, stubFirstState) :=
  c7_reload_stub_aborts idReloadEnv stubFirstState "orchestrator"
    (mkStubModule "motivator" (some "track_achievements") (strategy4Methods "orchestrator"))
    [("content_curator", staleModule)] rfl rfl

/-- C8 counterexample: health_check returns one boolean, not a per-name
mapping: it returns the same value for a state with a single loaded name as
for a state with all six loaded, although the two differ at the registered
name motivator — so its result determines no per-registered-name mapping. -/
theorem c8_counterexample :
    health_check oneLoadedState = health_check allLoadedState ∧
    slookup oneLoadedState.modules "motivator" = none ∧
    slookup allLoadedState.modules "motivator" = some minimalModule :=
  ⟨rfl, rfl, rfl⟩

/-- C8 (amended): health_check returns a single boolean that is true exactly
when at least one name is currently cached; a capability resolved via the
fallback stub counts as loaded just like a fully loaded one — after an
initialization in which every registered name degraded to a stub, all six
names are cached and health_check reports true. -/
theorem c8_health_single_bool :
    (∀ s : JacState, health_check s = decide (0 < s.modules.length)) ∧
    allFailState.modules.map Prod.fst = walker_map.map Prod.fst ∧
    health_check allFailState = true :=
  ⟨fun _ => rfl, rfl, rfl⟩

/-- C9: execute_walker is total at its public interface: for every name
(registered or not) and every parameter bundle (None is treated as the empty
dict), it returns a result dict whose status is success or error, and it
never raises (the outer component is always Except.ok). -/
theorem c9_execute_walker_total (s : JacState) (wn : String) (ps : Option Params) :
    (∃ r, (execute_walker s wn ps).1 = .ok r ∧
      (r.status = "success" ∨ r.status = "error")) ∧
    execute_walker s wn none = execute_walker s wn (some []) := by
  constructor
  · cases h : execAttempt s wn (ps.getD []) with
    | ok r =>
      refine ⟨r, ?_, Or.inl (execAttempt_ok_status s wn _ r h)⟩
      rw [execute_walker_eq, h]
    | error e =>
      refine ⟨⟨"error", none, some e.text, wn, none⟩, ?_, Or.inr rfl⟩
      rw [execute_walker_eq, h]
  · rfl

/-- C10: neither invocation nor introspection mutates the capability cache:
execute_walker and get_available_functions return the state they were given
(the source contains no write to self.modules outside initialization and
reload). -/
theorem c10_no_cache_mutation (s : JacState) (wn : String) (ps : Option Params) :
    (execute_walker s wn ps).2 = s ∧ (get_available_functions s wn).2 = s := by
  constructor
  · rw [execute_walker_eq]
    cases execAttempt s wn (ps.getD []) <;> rfl
  · unfold get_available_functions
    cases slookup s.modules wn <;> rfl

end JacMgr
